import Mathlib

/-!
Verification of the HydroLink cloud-API client (custom_components/hydrolink/api.py).

The development shallowly embeds the client: HTTP calls are answered by an
explicit environment value, the mutable attributes of the `HydroLinkApi`
object become an `ApiState` record threaded through the functions, Python
exceptions become an `Except` result, and the websocket worker becomes a fold
over the list of inbound messages.  JSON payloads are modelled by an
inductive `Json` type with the `dict.get`-with-default lookup the source
uses.
-/

namespace HydroLink

/-- JSON values, the shape of every HTTP body the client inspects. -/
inductive Json where
  | null
  | bool (b : Bool)
  | num (n : Int)
  | str (s : String)
  | arr (xs : List Json)
  | obj (kvs : List (String × Json))

/-- First value bound to a key in an association list, as Python dict lookup. -/
def lookupKV : List (String × Json) → String → Option Json
  | [], _ => none
  | (k, v) :: rest, key => if k == key then some v else lookupKV rest key

/-- Python `d.get(key, default)` on a JSON object; on a non-object the claims
never exercise the call, and the default is returned. -/
def Json.getD (j : Json) (key : String) (default : Json) : Json :=
  match j with
  | .obj kvs => (lookupKV kvs key).getD default
  | _ => default

/-- Python truthiness of a JSON value (`if not device_id`, `if not ws_path`). -/
def truthy : Json → Bool
  | .null => false
  | .bool b => b
  | .num n => n != 0
  | .str s => s != ""
  | .arr xs => !xs.isEmpty
  | .obj kvs => !kvs.isEmpty

/-- Python truthiness of the stored cookie attribute (None or a string). -/
def truthyOpt : Option String → Bool
  | none => false
  | some s => s != ""

/-- Python `str()` rendering as used in the f-string building the ws URI; the
claims only exercise the string case. -/
def pyStr : Json → String
  | .str s => s
  | _ => ""

/-- Values `data` may take when the body is an object whose `data` key holds a
list; the source iterates the result of `body.get("data", [])`. -/
def jsonList : Json → List Json
  | .arr xs => xs
  | _ => []

/-- Outcome of one HTTP request: a response with status, JSON body and
cookies, or one of the transport-level failures `requests` raises. -/
inductive HttpOutcome where
  | resp (status : Nat) (body : Json) (cookies : List (String × String))
  | timeout
  | connError
  | reqError

/-- Lookup in a response cookie jar (`response.cookies.get(name)`). -/
def cookieGet : List (String × String) → String → Option String
  | [], _ => none
  | (k, v) :: rest, key => if k == key then some v else cookieGet rest key

/-- The two exception classes the client raises. -/
inductive ApiError where
  | invalidAuth (msg : String)
  | cannotConnect (msg : String)
  deriving DecidableEq, Repr

/-- Mutable attributes of the `HydroLinkApi` object. -/
structure ApiState where
  auth_cookie : Option String
  ws_message_count : Nat
  waiting_for_ws_thread_to_end : Nat
  ws_uri : String
  deriving DecidableEq, Repr

/-- State set up by `HydroLinkApi.__init__`. -/
def initState : ApiState :=
  { auth_cookie := none
    ws_message_count := 0
    waiting_for_ws_thread_to_end := 1
    ws_uri := "" }

def WS_BASE_URL : String := "wss://api.hydrolinkhome.com"

/-- `HydroLinkApi.login`, fed the outcome of the single POST it makes.
Mirrors api.py lines 167-200: 401 raises InvalidAuth; 429 and >= 500 raise
CannotConnect; any other error status trips `raise_for_status`, whose
HTTPError the final `except requests.RequestException` turns into
CannotConnect; on success the cookie is stored and its absence raises
CannotConnect; Timeout and ConnectionError become CannotConnect. -/
def login (st : ApiState) (r : HttpOutcome) : ApiState × Except ApiError Bool :=
  match r with
  | .timeout => (st, .error (.cannotConnect "Connection timed out"))
  | .connError => (st, .error (.cannotConnect "Failed to connect to HydroLink"))
  | .reqError => (st, .error (.cannotConnect "Unknown error"))
  | .resp status _ cookies =>
    if status = 401 then
      (st, .error (.invalidAuth "Invalid email or password"))
    else if status = 429 then
      (st, .error (.cannotConnect "Rate limit exceeded"))
    else if 500 <= status then
      (st, .error (.cannotConnect "Server error"))
    else if 400 <= status then
      (st, .error (.cannotConnect "Unknown error"))
    else
      let c := cookieGet cookies "hhfoffoezyzzoeibwv"
      let st2 := { st with auth_cookie := c }
      if truthyOpt c then (st2, .ok true)
      else (st2, .error (.cannotConnect "No authentication cookie received"))

/-- Per-connection data of one websocket session inside `_start_ws`: whether
`ws.close()` has been called (after which `run_forever` stops dispatching
messages) and how many times it was called. -/
structure WsLocal where
  closed : Bool
  closeCalls : Nat
  deriving DecidableEq, Repr

/-- Effect of the `on_message` callback for one inbound message.  `valid`
records whether `json.loads(message)` would succeed.  The counter attribute of
the shared object is incremented first; with debug logging enabled an invalid
payload raises `json.JSONDecodeError` before the threshold check, which the
handler catches and logs, so the close check is skipped for that message. -/
def onMessage (debug : Bool) (valid : Bool) (st : ApiState) (l : WsLocal) :
    ApiState × WsLocal :=
  let st2 := { st with ws_message_count := st.ws_message_count + 1 }
  if debug = true /\ valid = false then
    (st2, l)
  else if 17 <= st2.ws_message_count then
    (st2, { l with closed := true, closeCalls := l.closeCalls + 1 })
  else
    (st2, l)

/-- `run_forever` dispatching the inbound messages in order; once the handler
has called `ws.close()` no further message is delivered. -/
def runMessages (debug : Bool) : List Bool → ApiState → WsLocal → ApiState × WsLocal
  | [], st, l => (st, l)
  | v :: vs, st, l =>
    if l.closed = true then (st, l)
    else
      let p := onMessage debug v st l
      runMessages debug vs p.1 p.2

/-- Behaviour of the websocket connection handed to `_start_ws`: it delivers a
list of inbound messages (each flagged as valid or malformed JSON) and then
`run_forever` either returns or raises an exception. -/
inductive WsRun where
  | delivers (msgs : List Bool)
  | raises (msgs : List Bool)

/-- Messages a run delivers. -/
def WsRun.msgs : WsRun → List Bool
  | .delivers ms => ms
  | .raises ms => ms

/-- `HydroLinkApi._start_ws` (api.py lines 202-289): reset the shared message
counter to 0, run the connection, and in the `finally` block set the
completion flag `waiting_for_ws_thread_to_end` to 0 whether `run_forever`
returned or raised; an exception is logged and re-raised as CannotConnect
inside the worker thread. -/
def start_ws (debug : Bool) (run : WsRun) (st : ApiState) :
    ApiState × WsLocal × Option ApiError :=
  let st0 := { st with ws_message_count := 0 }
  let p := runMessages debug run.msgs st0 { closed := false, closeCalls := 0 }
  match run with
  | .delivers _ =>
    ({ p.1 with waiting_for_ws_thread_to_end := 0 }, p.2, none)
  | .raises _ =>
    ({ p.1 with waiting_for_ws_thread_to_end := 0 }, p.2,
      some (.cannotConnect "WebSocket connection failed"))

/-- Externally visible actions of a client call, recorded in order so that
properties such as "login happens before any device-list request" are
statable. -/
inductive Action where
  | loginCall
  | listFetch
  | liveFetch (deviceId : String)
  | wsSession
  | regenPost (deviceId : String)
  deriving DecidableEq, Repr

/-- Environment answering every request one `get_data` call can make: the
login POST (used only when no cookie is stored), the first device-list GET,
the per-iteration live-descriptor GETs and websocket runs, and the second
device-list GET. -/
structure FetchEnv where
  login_r : HttpOutcome
  list1 : HttpOutcome
  live : Nat → HttpOutcome
  wsDebug : Bool
  wsRun : Nat → WsRun
  list2 : HttpOutcome

/-- One iteration of the per-device loop in `get_data` (api.py lines
342-398).  Everything in the iteration sits in a `try` whose
`except requests.RequestException` handler logs and continues, so a missing
id, a failed or non-2xx live fetch, and a missing `websocket_uri` all leave
the loop running; a successful descriptor starts the websocket worker and
waits for it. -/
def processDevice (debug : Bool) (liveR : HttpOutcome) (wsR : WsRun)
    (st : ApiState) (device : Json) : ApiState × List Action :=
  let device_id := Json.getD device "id" .null
  if truthy device_id = false then (st, [])
  else
    match liveR with
    | .timeout => (st, [.liveFetch (pyStr device_id)])
    | .connError => (st, [.liveFetch (pyStr device_id)])
    | .reqError => (st, [.liveFetch (pyStr device_id)])
    | .resp status body _ =>
      if 400 <= status then (st, [.liveFetch (pyStr device_id)])
      else
        let ws_path := Json.getD body "websocket_uri" .null
        if truthy ws_path = false then (st, [.liveFetch (pyStr device_id)])
        else
          let st2 := { st with
            ws_uri := WS_BASE_URL ++ pyStr ws_path
            waiting_for_ws_thread_to_end := 1 }
          let r := start_ws debug wsR st2
          (r.1, [.liveFetch (pyStr device_id), .wsSession])

/-- The per-device loop of `get_data`, device `i` answered by `env.live i`
and `env.wsRun i`. -/
def processDevices (env : FetchEnv) : List Json → Nat → ApiState →
    ApiState × List Action
  | [], _, st => (st, [])
  | d :: ds, i, st =>
    let p := processDevice env.wsDebug (env.live i) (env.wsRun i) st d
    let q := processDevices env ds (i + 1) p.1
    (q.1, p.2 ++ q.2)

/-- The tail of `get_data` after a successful first device-list response with
body `body1` (api.py lines 339-416): run the per-device loop, then re-GET the
device list; a 401 on this second GET is seen only by `raise_for_status`,
whose HTTPError the outer `except requests.RequestException` converts to
CannotConnect, without touching the stored cookie. -/
def get_data_after_list1 (env : FetchEnv) (body1 : Json) (st : ApiState) :
    ApiState × List Action × Except ApiError (List Json) :=
  let devices := jsonList (Json.getD body1 "data" (.arr []))
  let p := processDevices env devices 0 st
  match env.list2 with
  | .timeout =>
    (p.1, p.2 ++ [.listFetch], .error (.cannotConnect "Connection timed out"))
  | .connError =>
    (p.1, p.2 ++ [.listFetch],
      .error (.cannotConnect "Failed to connect to HydroLink"))
  | .reqError =>
    (p.1, p.2 ++ [.listFetch],
      .error (.cannotConnect "Error fetching device data"))
  | .resp status2 body2 _ =>
    if 400 <= status2 then
      (p.1, p.2 ++ [.listFetch],
        .error (.cannotConnect "Error fetching device data"))
    else
      (p.1, p.2 ++ [.listFetch], .ok (jsonList (Json.getD body2 "data" (.arr []))))

/-- `get_data` once a session cookie is in hand (api.py lines 324-416): the
first device-list GET checks for 401 explicitly — clearing the cookie and
raising InvalidAuth — while every other error status goes through
`raise_for_status` into CannotConnect. -/
def get_data_authed (env : FetchEnv) (st : ApiState) :
    ApiState × List Action × Except ApiError (List Json) :=
  match env.list1 with
  | .timeout => (st, [.listFetch], .error (.cannotConnect "Connection timed out"))
  | .connError =>
    (st, [.listFetch], .error (.cannotConnect "Failed to connect to HydroLink"))
  | .reqError =>
    (st, [.listFetch], .error (.cannotConnect "Error fetching device data"))
  | .resp status body1 _ =>
    if status = 401 then
      ({ st with auth_cookie := none }, [.listFetch],
        .error (.invalidAuth "Authentication expired"))
    else if 400 <= status then
      (st, [.listFetch], .error (.cannotConnect "Error fetching device data"))
    else
      let q := get_data_after_list1 env body1 st
      (q.1, .listFetch :: q.2.1, q.2.2)

/-- `HydroLinkApi.get_data` (api.py lines 291-416): if the stored cookie is
falsy, `self.login()` runs first and its exception propagates unchanged. -/
def get_data (env : FetchEnv) (st : ApiState) :
    ApiState × List Action × Except ApiError (List Json) :=
  if truthyOpt st.auth_cookie = false then
    match login st env.login_r with
    | (st2, .ok _) =>
      let q := get_data_authed env st2
      (q.1, .loginCall :: q.2.1, q.2.2)
    | (st2, .error e) => (st2, [.loginCall], .error e)
  else
    get_data_authed env st

/-- Environment for one `trigger_regeneration` call. -/
structure TrigEnv where
  login_r : HttpOutcome
  post_r : HttpOutcome

/-- The POST of `trigger_regeneration` once a cookie is in hand (api.py lines
434-453): 401 clears the cookie and raises InvalidAuth; other error statuses,
timeouts and connection failures become CannotConnect. -/
def trigger_authed (device_id : String) (post_r : HttpOutcome) (st : ApiState) :
    ApiState × List Action × Except ApiError Bool :=
  match post_r with
  | .timeout =>
    (st, [.regenPost device_id], .error (.cannotConnect "Connection timed out"))
  | .connError =>
    (st, [.regenPost device_id],
      .error (.cannotConnect "Failed to connect to HydroLink"))
  | .reqError =>
    (st, [.regenPost device_id],
      .error (.cannotConnect "Error triggering regeneration"))
  | .resp status _ _ =>
    if status = 401 then
      ({ st with auth_cookie := none }, [.regenPost device_id],
        .error (.invalidAuth "Authentication expired"))
    else if 400 <= status then
      (st, [.regenPost device_id],
        .error (.cannotConnect "Error triggering regeneration"))
    else
      (st, [.regenPost device_id], .ok true)

/-- `HydroLinkApi.trigger_regeneration` (api.py lines 418-453): login first
when the stored cookie is falsy, then POST the regenerate endpoint. -/
def trigger_regeneration (device_id : String) (env : TrigEnv) (st : ApiState) :
    ApiState × List Action × Except ApiError Bool :=
  if truthyOpt st.auth_cookie = false then
    match login st env.login_r with
    | (st2, .ok _) =>
      let q := trigger_authed device_id env.post_r st2
      (q.1, .loginCall :: q.2.1, q.2.2)
    | (st2, .error e) => (st2, [.loginCall], .error e)
  else
    trigger_authed device_id env.post_r st

/-! Concurrent two-session model.  `ws_message_count` is an attribute of the
`HydroLinkApi` object, so every websocket session of one client reads and
writes the same counter.  Two sessions can overlap: the orchestrator abandons
a worker after its 15 s wait and 5 s join and starts the next device's worker
while the old one may still be running.  Events of the two overlapping
sessions A and B interleave; each event is a step of the corresponding
closure over the shared object state. -/

/-- Interleaved events of two websocket sessions of the same client. -/
inductive CEvent where
  | startA
  | startB
  | msgA
  | msgB
  deriving DecidableEq, Repr

/-- Shared-object state plus the per-connection data of the two sessions. -/
structure CState where
  count : Nat
  closedA : Bool
  closeCallsA : Nat
  closedB : Bool
  closeCallsB : Nat
  deriving DecidableEq, Repr

/-- One interleaved step: a session start runs the `self.ws_message_count = 0`
reset of `_start_ws` on the shared counter; a message event runs the session's
`on_message` (increment shared counter, close own connection at 17), ignored
once that session's connection is closed. -/
def cstep : CEvent → CState → CState
  | .startA, s => { s with count := 0, closedA := false, closeCallsA := 0 }
  | .startB, s => { s with count := 0, closedB := false, closeCallsB := 0 }
  | .msgA, s =>
    if s.closedA = true then s
    else if 17 <= s.count + 1 then
      { s with count := s.count + 1, closedA := true,
               closeCallsA := s.closeCallsA + 1 }
    else { s with count := s.count + 1 }
  | .msgB, s =>
    if s.closedB = true then s
    else if 17 <= s.count + 1 then
      { s with count := s.count + 1, closedB := true,
               closeCallsB := s.closeCallsB + 1 }
    else { s with count := s.count + 1 }

/-- Run an interleaving from a state. -/
def runConcFrom : List CEvent → CState → CState
  | [], s => s
  | e :: es, s => runConcFrom es (cstep e s)

/-- State before any session has started. -/
def cInit : CState :=
  { count := 0, closedA := false, closeCallsA := 0
    closedB := false, closeCallsB := 0 }

/-- Run an interleaving from the initial state. -/
def runConc (es : List CEvent) : CState := runConcFrom es cInit

/-- Events belonging to session A. -/
def isAEvent : CEvent → Bool
  | .startA => true
  | .msgA => true
  | _ => false

/-! Helper lemmas. -/

/-- A closed connection delivers no further messages. -/
lemma runMessages_closed_of (debug : Bool) (msgs : List Bool) (st : ApiState)
    (l : WsLocal) (h : l.closed = true) :
    runMessages debug msgs st l = (st, l) := by
  cases msgs <;> simp [runMessages, h]

/-- Message dispatch splits along list concatenation. -/
lemma runMessages_append_eq (debug : Bool) (xs ys : List Bool) :
    ∀ (st : ApiState) (l : WsLocal),
      runMessages debug (xs ++ ys) st l =
        runMessages debug ys (runMessages debug xs st l).1
          (runMessages debug xs st l).2 := by
  induction xs with
  | nil => intro st l; rfl
  | cons v vs ih =>
    intro st l
    by_cases h : l.closed = true
    · simp [runMessages, h, runMessages_closed_of]
    · simp only [List.cons_append, runMessages, h, if_false, if_neg h]
      exact ih _ _

/-- The message handler never touches the stored session cookie. -/
lemma onMessage_auth_cookie (debug v : Bool) (st : ApiState) (l : WsLocal) :
    (onMessage debug v st l).1.auth_cookie = st.auth_cookie := by
  unfold onMessage
  dsimp only
  split
  · rfl
  · split <;> rfl

/-- Message dispatch never touches the stored session cookie. -/
lemma runMessages_auth_cookie (debug : Bool) :
    ∀ (msgs : List Bool) (st : ApiState) (l : WsLocal),
      (runMessages debug msgs st l).1.auth_cookie = st.auth_cookie := by
  intro msgs
  induction msgs with
  | nil => intro st l; rfl
  | cons v vs ih =>
    intro st l
    by_cases h : l.closed = true
    · simp [runMessages, h]
    · simp only [runMessages, if_neg h]
      rw [ih]
      exact onMessage_auth_cookie debug v st l

/-- The websocket worker never touches the stored session cookie. -/
lemma start_ws_auth_cookie (debug : Bool) (run : WsRun) (st : ApiState) :
    (start_ws debug run st).1.auth_cookie = st.auth_cookie := by
  cases run <;> simp [start_ws, runMessages_auth_cookie]

/-- One loop iteration of `get_data` never touches the stored session cookie. -/
lemma processDevice_auth_cookie (debug : Bool) (r : HttpOutcome) (w : WsRun)
    (st : ApiState) (device : Json) :
    (processDevice debug r w st device).1.auth_cookie = st.auth_cookie := by
  unfold processDevice
  dsimp only
  split
  · rfl
  · cases r with
    | timeout => rfl
    | connError => rfl
    | reqError => rfl
    | resp status body k =>
      dsimp only
      split
      · rfl
      · split
        · rfl
        · rw [start_ws_auth_cookie]

/-- The per-device loop of `get_data` never touches the stored session
cookie. -/
lemma processDevices_auth_cookie (env : FetchEnv) :
    ∀ (ds : List Json) (i : Nat) (st : ApiState),
      (processDevices env ds i st).1.auth_cookie = st.auth_cookie := by
  intro ds
  induction ds with
  | nil => intro i st; rfl
  | cons d rest ih =>
    intro i st
    simp only [processDevices]
    rw [ih]
    exact processDevice_auth_cookie _ _ _ _ _

/-- C3: `login()` classifies failures exactly: an HTTP 401 yields InvalidAuth
and never CannotConnect; HTTP 429, HTTP status at least 500, a timeout and a
transport-level connection failure each yield CannotConnect and never
InvalidAuth; and a 2xx response whose cookie jar lacks a truthy session token
also yields CannotConnect. -/
theorem login_error_classification (st : ApiState) :
    (∀ body cookies, login st (.resp 401 body cookies) =
        (st, .error (.invalidAuth "Invalid email or password")))
  ∧ (∀ body cookies, login st (.resp 429 body cookies) =
        (st, .error (.cannotConnect "Rate limit exceeded")))
  ∧ (∀ status body cookies, 500 ≤ status →
        login st (.resp status body cookies) =
          (st, .error (.cannotConnect "Server error")))
  ∧ login st .timeout = (st, .error (.cannotConnect "Connection timed out"))
  ∧ login st .connError =
      (st, .error (.cannotConnect "Failed to connect to HydroLink"))
  ∧ (∀ status body cookies, 200 ≤ status → status < 300 →
        truthyOpt (cookieGet cookies "hhfoffoezyzzoeibwv") = false →
        login st (.resp status body cookies) =
          ({ st with auth_cookie := cookieGet cookies "hhfoffoezyzzoeibwv" },
            .error (.cannotConnect "No authentication cookie received"))) := by
  refine ⟨fun body cookies => by simp [login],
    fun body cookies => by simp [login], ?_, rfl, rfl, ?_⟩
  · intro status body cookies h
    simp only [login]
    rw [if_neg (by omega), if_neg (by omega), if_pos h]
  · intro status body cookies h1 h2 h3
    simp only [login]
    rw [if_neg (by omega), if_neg (by omega), if_neg (by omega),
      if_neg (by omega)]
    simp [h3]

/-- Witness for C3 at concrete inputs: a 503 response and a 200 response
with an empty cookie jar. -/
theorem login_error_classification_witness :
    login initState (.resp 503 .null []) =
      (initState, .error (.cannotConnect "Server error"))
  ∧ login initState (.resp 200 .null []) =
      ({ initState with auth_cookie := none },
        .error (.cannotConnect "No authentication cookie received")) := by
  refine ⟨(login_error_classification initState).2.2.1 503 .null [] (by omega), ?_⟩
  exact (login_error_classification initState).2.2.2.2.2 200 .null []
    (by omega) (by omega) rfl

/-- C7: a `get_data()` call with no stored session token performs a login
before any device-list request, and a login failure is propagated with its
kind unchanged. -/
theorem get_data_login_first (env : FetchEnv) (st : ApiState)
    (hc : truthyOpt st.auth_cookie = false) :
    (get_data env st).2.1.head? = some .loginCall
  ∧ (∀ st2 e, login st env.login_r = (st2, .error e) →
      get_data env st = (st2, [.loginCall], .error e)) := by
  constructor
  · simp only [get_data, if_pos hc]
    rcases h : login st env.login_r with ⟨st2, res⟩
    cases res <;> rfl
  · intro st2 e h
    simp only [get_data, if_pos hc, h]

/-- Witness for C7: a fresh client whose login POST times out. -/
theorem get_data_login_first_witness :
    (get_data
      { login_r := .timeout
        list1 := .resp 200 (.obj []) []
        live := fun _ => HttpOutcome.reqError
        wsDebug := false
        wsRun := fun _ => WsRun.delivers []
        list2 := .resp 200 (.obj []) [] }
      initState) =
      (initState, [.loginCall], .error (.cannotConnect "Connection timed out")) := by
  exact (get_data_login_first _ initState rfl).2 initState _ rfl

/-- C1: when both device-list fetches succeed with different payloads,
`get_data()` returns exactly the `data` list of the second response —
unaltered, with no scaling or mutation of property values or timestamps —
whatever the per-device live fetches and websocket runs did. -/
theorem get_data_second_fetch (env : FetchEnv) (st : ApiState)
    (s1 s2 : Nat) (b1 b2 : Json) (k1 k2 : List (String × String))
    (hc : truthyOpt st.auth_cookie = true)
    (h1 : env.list1 = .resp s1 b1 k1) (hs1 : s1 < 400)
    (h2 : env.list2 = .resp s2 b2 k2) (hs2 : s2 < 400)
    (hne : b1 ≠ b2) :
    (get_data env st).2.2 = .ok (jsonList (Json.getD b2 "data" (.arr [])))
  ∧ (jsonList (Json.getD b1 "data" (.arr [])) ≠
        jsonList (Json.getD b2 "data" (.arr [])) →
      (get_data env st).2.2 ≠ .ok (jsonList (Json.getD b1 "data" (.arr [])))) := by
  have hcond : ¬ (truthyOpt st.auth_cookie = false) := by simp [hc]
  have hmain : (get_data env st).2.2 =
      .ok (jsonList (Json.getD b2 "data" (.arr []))) := by
    simp only [get_data, if_neg hcond]
    simp only [get_data_authed, h1]
    rw [if_neg (show ¬ s1 = 401 by omega), if_neg (show ¬ 400 ≤ s1 by omega)]
    simp only [get_data_after_list1, h2]
    rw [if_neg (show ¬ 400 ≤ s2 by omega)]
  refine ⟨hmain, fun hdiff hcontra => ?_⟩
  rw [hmain] at hcontra
  exact hdiff (Except.ok.inj hcontra).symm

/-- Witness for C1: the spec scenario — device `d1` carries
`salt_level_tenths.value = 750` in the first list response and `770` in the
second; `get_data()` returns the 770-valued snapshot. -/
theorem get_data_second_fetch_witness :
    (get_data
      { login_r := .reqError
        list1 := .resp 200 (.obj [("data", .arr [.obj [("id", .str "d1"),
          ("properties", .obj [("salt_level_tenths",
            .obj [("value", .num 750)])])]])]) []
        live := fun _ => HttpOutcome.reqError
        wsDebug := false
        wsRun := fun _ => WsRun.delivers []
        list2 := .resp 200 (.obj [("data", .arr [.obj [("id", .str "d1"),
          ("properties", .obj [("salt_level_tenths",
            .obj [("value", .num 770)])])]])]) [] }
      { initState with auth_cookie := some "tok" }).2.2
    = .ok [.obj [("id", .str "d1"),
        ("properties", .obj [("salt_level_tenths",
          .obj [("value", .num 770)])])]] := by
  exact (get_data_second_fetch
    { login_r := .reqError
      list1 := .resp 200 (.obj [("data", .arr [.obj [("id", .str "d1"),
        ("properties", .obj [("salt_level_tenths",
          .obj [("value", .num 750)])])]])]) []
      live := fun _ => HttpOutcome.reqError
      wsDebug := false
      wsRun := fun _ => WsRun.delivers []
      list2 := .resp 200 (.obj [("data", .arr [.obj [("id", .str "d1"),
        ("properties", .obj [("salt_level_tenths",
          .obj [("value", .num 770)])])]])]) [] }
    { initState with auth_cookie := some "tok" }
    200 200
    (.obj [("data", .arr [.obj [("id", .str "d1"),
      ("properties", .obj [("salt_level_tenths",
        .obj [("value", .num 750)])])]])])
    (.obj [("data", .arr [.obj [("id", .str "d1"),
      ("properties", .obj [("salt_level_tenths",
        .obj [("value", .num 770)])])]])])
    [] [] (by decide) rfl (by omega) rfl (by omega) (by simp)).1

/-- C2 counterexample: with a valid session, a 2xx first device-list fetch
and a 401 on the second device-list fetch, `get_data()` fails with
CannotConnect — not InvalidAuth — and leaves the stored session token in
place, refuting the claim that a 401 at any step clears the token and fails
with InvalidAuth. -/
theorem get_data_second_401_counterexample :
    (get_data
      { login_r := .reqError
        list1 := .resp 200 (.obj []) []
        live := fun _ => HttpOutcome.reqError
        wsDebug := false
        wsRun := fun _ => WsRun.delivers []
        list2 := .resp 401 .null [] }
      { initState with auth_cookie := some "tok" }).2.2
      = .error (.cannotConnect "Error fetching device data")
  ∧ (get_data
      { login_r := .reqError
        list1 := .resp 200 (.obj []) []
        live := fun _ => HttpOutcome.reqError
        wsDebug := false
        wsRun := fun _ => WsRun.delivers []
        list2 := .resp 401 .null [] }
      { initState with auth_cookie := some "tok" }).2.2
      ≠ .error (.invalidAuth "Authentication expired")
  ∧ (get_data
      { login_r := .reqError
        list1 := .resp 200 (.obj []) []
        live := fun _ => HttpOutcome.reqError
        wsDebug := false
        wsRun := fun _ => WsRun.delivers []
        list2 := .resp 401 .null [] }
      { initState with auth_cookie := some "tok" }).1.auth_cookie
      = some "tok" := by
  refine ⟨rfl, ?_, rfl⟩
  intro h
  exact ApiError.noConfusion (Except.error.inj h)

/-- C2 (amended): a 401 at the first device-list fetch clears the session
token and fails with InvalidAuth; a 401 at a per-device live-descriptor
fetch is caught by the per-device handler and only skips that device; a 401
at the second device-list fetch fails with CannotConnect and leaves the
stored token unchanged. -/
theorem get_data_401_handling :
    (∀ env st b k, truthyOpt st.auth_cookie = true →
        env.list1 = .resp 401 b k →
        get_data env st = ({ st with auth_cookie := none }, [.listFetch],
          .error (.invalidAuth "Authentication expired")))
  ∧ (∀ debug w st device b k,
        (processDevice debug (.resp 401 b k) w st device).1 = st)
  ∧ (∀ env st s1 b1 k1 b2 k2, truthyOpt st.auth_cookie = true →
        env.list1 = .resp s1 b1 k1 → s1 < 400 →
        env.list2 = .resp 401 b2 k2 →
        (get_data env st).2.2 = .error (.cannotConnect "Error fetching device data")
      ∧ (get_data env st).1.auth_cookie = st.auth_cookie) := by
  refine ⟨?_, ?_, ?_⟩
  · intro env st b k hc h1
    have hcond : ¬ (truthyOpt st.auth_cookie = false) := by simp [hc]
    simp only [get_data, if_neg hcond]
    simp only [get_data_authed, h1]
    simp
  · intro debug w st device b k
    unfold processDevice
    dsimp only
    split
    · rfl
    · rw [if_pos (by omega)]
  · intro env st s1 b1 k1 b2 k2 hc h1 hs1 h2
    have hcond : ¬ (truthyOpt st.auth_cookie = false) := by simp [hc]
    have hred : get_data env st =
        ((processDevices env (jsonList (Json.getD b1 "data" (.arr []))) 0 st).1,
          .listFetch ::
            ((processDevices env (jsonList (Json.getD b1 "data" (.arr []))) 0 st).2
              ++ [.listFetch]),
          .error (.cannotConnect "Error fetching device data")) := by
      simp only [get_data, if_neg hcond]
      simp only [get_data_authed, h1]
      rw [if_neg (show ¬ s1 = 401 by omega), if_neg (show ¬ 400 ≤ s1 by omega)]
      simp only [get_data_after_list1, h2]
      rw [if_pos (by omega)]
    rw [hred]
    exact ⟨rfl, processDevices_auth_cookie env _ 0 st⟩

/-- Witness for the amended C2: a 401 on the first list fetch of an
authenticated client clears the token and raises InvalidAuth. -/
theorem get_data_401_handling_witness :
    get_data
      { login_r := .reqError
        list1 := .resp 401 .null []
        live := fun _ => HttpOutcome.reqError
        wsDebug := false
        wsRun := fun _ => WsRun.delivers []
        list2 := .resp 200 (.obj []) [] }
      { initState with auth_cookie := some "tok" }
      = ({ initState with auth_cookie := none }, [.listFetch],
          .error (.invalidAuth "Authentication expired")) := by
  have h := get_data_401_handling.1
    { login_r := .reqError
      list1 := .resp 401 .null []
      live := fun _ => HttpOutcome.reqError
      wsDebug := false
      wsRun := fun _ => WsRun.delivers []
      list2 := .resp 200 (.obj []) [] }
    { initState with auth_cookie := some "tok" }
    .null [] (by decide) rfl
  simpa using h

/-- C6: a per-device failure — a falsy device id, a request exception or
error status on the live-descriptor fetch, or a missing `websocket_uri` —
leaves the client state untouched for that device, the loop is structurally
continued on the remaining devices, and `get_data()` still returns the
second-fetch device list. -/
theorem get_data_per_device_failures :
    (∀ debug r w st device, truthy (Json.getD device "id" Json.null) = false →
        processDevice debug r w st device = (st, []))
  ∧ (∀ debug w st device, (processDevice debug .timeout w st device).1 = st
      ∧ (processDevice debug .connError w st device).1 = st
      ∧ (processDevice debug .reqError w st device).1 = st)
  ∧ (∀ debug s b k w st device, 400 ≤ s →
        (processDevice debug (.resp s b k) w st device).1 = st)
  ∧ (∀ debug s b k w st device,
        truthy (Json.getD b "websocket_uri" Json.null) = false →
        (processDevice debug (.resp s b k) w st device).1 = st)
  ∧ (∀ env d ds i st,
        (processDevices env (d :: ds) i st).1 =
          (processDevices env ds (i + 1)
            (processDevice env.wsDebug (env.live i) (env.wsRun i) st d).1).1)
  ∧ (∀ env st s1 s2 b1 b2 k1 k2, truthyOpt st.auth_cookie = true →
        env.list1 = .resp s1 b1 k1 → s1 < 400 →
        env.list2 = .resp s2 b2 k2 → s2 < 400 →
        (get_data env st).2.2 = .ok (jsonList (Json.getD b2 "data" (.arr [])))) := by
  refine ⟨?_, ?_, ?_, ?_, ?_, ?_⟩
  · intro debug r w st device h
    unfold processDevice
    rw [if_pos h]
  · intro debug w st device
    refine ⟨?_, ?_, ?_⟩ <;>
      (unfold processDevice; dsimp only; split <;> rfl)
  · intro debug s b k w st device hs
    unfold processDevice
    dsimp only
    split <;> rfl
  · intro debug s b k w st device hws
    unfold processDevice
    dsimp only
    split <;> first | rfl | simp_all
  · intro env d ds i st
    rfl
  · intro env st s1 s2 b1 b2 k1 k2 hc h1 hs1 h2 hs2
    have hcond : ¬ (truthyOpt st.auth_cookie = false) := by simp [hc]
    simp only [get_data, if_neg hcond]
    simp only [get_data_authed, h1]
    rw [if_neg (show ¬ s1 = 401 by omega), if_neg (show ¬ 400 ≤ s1 by omega)]
    simp only [get_data_after_list1, h2]
    rw [if_neg (show ¬ 400 ≤ s2 by omega)]

/-- Witness for C6: one device with no id and one whose live fetch raises,
yet `get_data()` returns the second list. -/
theorem get_data_per_device_failures_witness :
    (get_data
      { login_r := .reqError
        list1 := .resp 200 (.obj [("data", .arr [.obj [("nickname", .str "x")],
          .obj [("id", .str "d2")]])]) []
        live := fun _ => HttpOutcome.timeout
        wsDebug := false
        wsRun := fun _ => WsRun.delivers []
        list2 := .resp 200 (.obj [("data", .arr [.obj [("id", .str "d2")]])]) [] }
      { initState with auth_cookie := some "tok" }).2.2
      = .ok [.obj [("id", .str "d2")]] := by
  have h := get_data_per_device_failures.2.2.2.2.2
    { login_r := .reqError
      list1 := .resp 200 (.obj [("data", .arr [.obj [("nickname", .str "x")],
        .obj [("id", .str "d2")]])]) []
      live := fun _ => HttpOutcome.timeout
      wsDebug := false
      wsRun := fun _ => WsRun.delivers []
      list2 := .resp 200 (.obj [("data", .arr [.obj [("id", .str "d2")]])]) [] }
    { initState with auth_cookie := some "tok" }
    200 200
    (.obj [("data", .arr [.obj [("nickname", .str "x")],
      .obj [("id", .str "d2")]])])
    (.obj [("data", .arr [.obj [("id", .str "d2")]])])
    [] [] (by decide) rfl (by omega) rfl (by omega)
  simpa using h

/-- C10: a device-list body without the `data` key is treated as an empty
device list: with such a first response the per-device loop runs zero times
(state unchanged, no live fetch or websocket session in the trace), and with
such a second response `get_data()` returns the empty list rather than fail. -/
theorem get_data_missing_data_key :
    (∀ env st s1 kvs1 k1, truthyOpt st.auth_cookie = true →
        env.list1 = .resp s1 (.obj kvs1) k1 → s1 < 400 →
        lookupKV kvs1 "data" = none →
        (get_data env st).1 = st
      ∧ (get_data env st).2.1 = [.listFetch, .listFetch])
  ∧ (∀ env st s1 s2 b1 kvs2 k1 k2, truthyOpt st.auth_cookie = true →
        env.list1 = .resp s1 b1 k1 → s1 < 400 →
        env.list2 = .resp s2 (.obj kvs2) k2 → s2 < 400 →
        lookupKV kvs2 "data" = none →
        (get_data env st).2.2 = .ok []) := by
  constructor
  · intro env st s1 kvs1 k1 hc h1 hs1 hd1
    have hcond : ¬ (truthyOpt st.auth_cookie = false) := by simp [hc]
    have hempty : jsonList (Json.getD (.obj kvs1) "data" (.arr [])) = [] := by
      simp [Json.getD, hd1, jsonList]
    simp only [get_data, if_neg hcond]
    simp only [get_data_authed, h1]
    rw [if_neg (show ¬ s1 = 401 by omega), if_neg (show ¬ 400 ≤ s1 by omega)]
    simp only [get_data_after_list1, hempty, processDevices]
    constructor
    · split <;> first | rfl | (split <;> rfl)
    · split <;> first | rfl | (split <;> rfl)
  · intro env st s1 s2 b1 kvs2 k1 k2 hc h1 hs1 h2 hs2 hd2
    have hcond : ¬ (truthyOpt st.auth_cookie = false) := by simp [hc]
    simp only [get_data, if_neg hcond]
    simp only [get_data_authed, h1]
    rw [if_neg (show ¬ s1 = 401 by omega), if_neg (show ¬ 400 ≤ s1 by omega)]
    simp only [get_data_after_list1, h2]
    rw [if_neg (show ¬ 400 ≤ s2 by omega)]
    simp [Json.getD, hd2, jsonList]

/-- Witness for C10: both list responses are objects without a `data` key. -/
theorem get_data_missing_data_key_witness :
    (get_data
      { login_r := .reqError
        list1 := .resp 200 (.obj [("page", .num 1)]) []
        live := fun _ => HttpOutcome.reqError
        wsDebug := false
        wsRun := fun _ => WsRun.delivers []
        list2 := .resp 200 (.obj [("page", .num 1)]) [] }
      { initState with auth_cookie := some "tok" }).2.1
      = [.listFetch, .listFetch]
  ∧ (get_data
      { login_r := .reqError
        list1 := .resp 200 (.obj [("page", .num 1)]) []
        live := fun _ => HttpOutcome.reqError
        wsDebug := false
        wsRun := fun _ => WsRun.delivers []
        list2 := .resp 200 (.obj [("page", .num 1)]) [] }
      { initState with auth_cookie := some "tok" }).2.2
      = .ok [] := by
  constructor
  · exact (get_data_missing_data_key.1
      { login_r := .reqError
        list1 := .resp 200 (.obj [("page", .num 1)]) []
        live := fun _ => HttpOutcome.reqError
        wsDebug := false
        wsRun := fun _ => WsRun.delivers []
        list2 := .resp 200 (.obj [("page", .num 1)]) [] }
      { initState with auth_cookie := some "tok" }
      200 [("page", .num 1)] [] (by decide) rfl (by omega) rfl).2
  · exact get_data_missing_data_key.2
      { login_r := .reqError
        list1 := .resp 200 (.obj [("page", .num 1)]) []
        live := fun _ => HttpOutcome.reqError
        wsDebug := false
        wsRun := fun _ => WsRun.delivers []
        list2 := .resp 200 (.obj [("page", .num 1)]) [] }
      { initState with auth_cookie := some "tok" }
      200 200 (.obj [("page", .num 1)]) [("page", .num 1)] [] []
      (by decide) rfl (by omega) rfl (by omega) rfl

/-- Core counting lemma for the websocket handler: as long as no message is
both malformed and debug-logged, processing a batch that stays within the
threshold either just adds its length to the counter or — exactly on reaching
17 — closes the connection once. -/
lemma runMessages_clean (debug : Bool) :
    ∀ (msgs : List Bool) (st : ApiState) (l : WsLocal),
      (∀ v ∈ msgs, (debug = true ∧ v = false) → False) →
      l.closed = false →
      st.ws_message_count < 17 →
      st.ws_message_count + msgs.length ≤ 17 →
      runMessages debug msgs st l =
        if st.ws_message_count + msgs.length < 17 then
          ({ st with ws_message_count := st.ws_message_count + msgs.length }, l)
        else
          ({ st with ws_message_count := 17 },
            { closed := true, closeCalls := l.closeCalls + 1 }) := by
  intro msgs
  induction msgs with
  | nil =>
    intro st l _ hcl hlt hle
    rw [if_pos (by simpa using hlt)]
    rcases l with ⟨cl, cc⟩
    simp at hcl
    subst hcl
    rfl
  | cons v vs ih =>
    intro st l hv hcl hlt hle
    simp only [List.length_cons] at hle ⊢
    rw [runMessages, if_neg (by simp [hcl])]
    have hnv : ¬ (debug = true ∧ v = false) := fun h => hv v (by simp) h
    by_cases hreach : st.ws_message_count + 1 = 17
    · have hvs : vs.length = 0 := by omega
      have hvsnil : vs = [] := List.eq_nil_of_length_eq_zero hvs
      subst hvsnil
      simp only [onMessage, if_neg hnv, List.length_nil]
      rw [if_pos (show (17:Nat) <= st.ws_message_count + 1 by omega)]
      rw [if_neg (show ¬ st.ws_message_count + (0 + 1) < 17 by omega)]
      rw [show st.ws_message_count + 1 = 17 from hreach]
      rfl
    · have hlt2 : st.ws_message_count + 1 < 17 := by omega
      simp only [onMessage, if_neg hnv]
      rw [if_neg (show ¬ (17:Nat) <= st.ws_message_count + 1 by omega)]
      rw [ih _ _ (fun w hw => hv w (by simp [hw])) hcl (by simp; omega) (by simp; omega)]
      by_cases hfin : st.ws_message_count + (vs.length + 1) < 17
      · rw [if_pos (show st.ws_message_count + 1 + vs.length < 17 by omega),
          if_pos hfin]
        have harith : st.ws_message_count + 1 + vs.length =
            st.ws_message_count + (vs.length + 1) := by omega
        rw [harith]
      · rw [if_neg (show ¬ st.ws_message_count + 1 + vs.length < 17 by omega),
          if_neg hfin]

/-- C4: the websocket worker starts each session with the message counter
reset to 0 (the result is the same for every prior counter value), and on a
connection delivering at least 17 well-formed messages the completion flag
ends done, the counter stops at exactly the 17-message threshold, and
`ws.close()` is called exactly once. -/
theorem start_ws_threshold (debug : Bool) (msgs : List Bool) (st : ApiState)
    (hv : ∀ v ∈ msgs, v = true) (hlen : 17 ≤ msgs.length) :
    (∀ n, start_ws debug (.delivers msgs) st
        = start_ws debug (.delivers msgs) { st with ws_message_count := n })
  ∧ (start_ws debug (.delivers msgs) st).1.ws_message_count = 17
  ∧ (start_ws debug (.delivers msgs) st).2.1.closeCalls = 1
  ∧ (start_ws debug (.delivers msgs) st).2.1.closed = true
  ∧ (start_ws debug (.delivers msgs) st).1.waiting_for_ws_thread_to_end = 0 := by
  have hsplit : msgs = msgs.take 17 ++ msgs.drop 17 := (List.take_append_drop 17 msgs).symm
  have htlen : (msgs.take 17).length = 17 := by
    rw [List.length_take]
    omega
  have hrun : runMessages debug msgs { st with ws_message_count := 0 }
      { closed := false, closeCalls := 0 } =
      ({ st with ws_message_count := 17 }, { closed := true, closeCalls := 1 }) := by
    rw [hsplit, runMessages_append_eq]
    have hclean := runMessages_clean debug (msgs.take 17)
      { st with ws_message_count := 0 } { closed := false, closeCalls := 0 }
      (fun w hw h => by
        have := hv w (List.take_subset 17 msgs hw)
        rw [this] at h
        exact Bool.noConfusion h.2)
      rfl (by simp) (by simp [htlen])
    rw [if_neg (by simp [htlen])] at hclean
    rw [hclean]
    exact runMessages_closed_of debug _ _ _ rfl
  refine ⟨fun n => rfl, ?_, ?_, ?_, rfl⟩
  · show ({ (runMessages debug msgs { st with ws_message_count := 0 }
      { closed := false, closeCalls := 0 }).1 with
        waiting_for_ws_thread_to_end := 0 }).ws_message_count = 17
    rw [hrun]
  · show (runMessages debug msgs { st with ws_message_count := 0 }
      { closed := false, closeCalls := 0 }).2.closeCalls = 1
    rw [hrun]
  · show (runMessages debug msgs { st with ws_message_count := 0 }
      { closed := false, closeCalls := 0 }).2.closed = true
    rw [hrun]

/-- Witness for C4: 20 well-formed messages on a fresh client. -/
theorem start_ws_threshold_witness :
    (start_ws false (.delivers (List.replicate 20 true)) initState).1.ws_message_count = 17
  ∧ (start_ws false (.delivers (List.replicate 20 true)) initState).2.1.closeCalls = 1
  ∧ (start_ws false (.delivers (List.replicate 20 true)) initState).1.waiting_for_ws_thread_to_end = 0 := by
  have h := start_ws_threshold false (List.replicate 20 true) initState
    (by intro v hv; exact List.eq_of_mem_replicate hv) (by simp)
  exact ⟨h.2.1, h.2.2.1, h.2.2.2.2⟩

/-- C5: the websocket worker always terminates with the completion flag set
done — also when `run_forever` raises mid-flight — and a malformed (non-JSON)
message is caught and skipped: the handler still counts it and the session
goes on with the remaining messages instead of aborting. -/
theorem start_ws_guaranteed_release (debug : Bool) (run : WsRun) (st : ApiState) :
    (start_ws debug run st).1.waiting_for_ws_thread_to_end = 0
  ∧ (∀ vs st2 l, l.closed = false →
      runMessages true (false :: vs) st2 l =
        runMessages true vs
          { st2 with ws_message_count := st2.ws_message_count + 1 } l) := by
  constructor
  · cases run <;> rfl
  · intro vs st2 l hcl
    rw [runMessages, if_neg (by simp [hcl])]
    simp [onMessage]

/-- Witness for C5: a raising run releases the flag, and a malformed first
message on a debug-logging session is skipped without aborting. -/
theorem start_ws_guaranteed_release_witness :
    (start_ws true (.raises [false, true]) initState).1.waiting_for_ws_thread_to_end = 0
  ∧ runMessages true [false, true] initState { closed := false, closeCalls := 0 } =
      runMessages true [true] { initState with ws_message_count := 1 }
        { closed := false, closeCalls := 0 } := by
  refine ⟨(start_ws_guaranteed_release true (.raises [false, true]) initState).1, ?_⟩
  exact (start_ws_guaranteed_release true (.raises [false, true]) initState).2
    [true] initState { closed := false, closeCalls := 0 } rfl

/-- C8: `trigger_regeneration` on a 401 clears the stored session token and
raises InvalidAuth; a subsequent call, seeing the cleared token, performs a
login before its POST; and timeouts and connection errors are classified as
CannotConnect exactly as in `login()`. -/
theorem trigger_regeneration_auth :
    (∀ dev env st b k, truthyOpt st.auth_cookie = true →
        env.post_r = .resp 401 b k →
        trigger_regeneration dev env st
          = ({ st with auth_cookie := none }, [.regenPost dev],
              .error (.invalidAuth "Authentication expired"))
      ∧ ∀ dev2 env2, ((trigger_regeneration dev2 env2
          (trigger_regeneration dev env st).1).2.1.head? = some .loginCall))
  ∧ (∀ dev env st, truthyOpt st.auth_cookie = true → env.post_r = .timeout →
        trigger_regeneration dev env st =
          (st, [.regenPost dev], .error (.cannotConnect "Connection timed out")))
  ∧ (∀ dev env st, truthyOpt st.auth_cookie = true → env.post_r = .connError →
        trigger_regeneration dev env st =
          (st, [.regenPost dev],
            .error (.cannotConnect "Failed to connect to HydroLink"))) := by
  refine ⟨?_, ?_, ?_⟩
  · intro dev env st b k hc hp
    have hcond : ¬ (truthyOpt st.auth_cookie = false) := by simp [hc]
    have h401 : trigger_regeneration dev env st
        = ({ st with auth_cookie := none }, [.regenPost dev],
            .error (.invalidAuth "Authentication expired")) := by
      simp only [trigger_regeneration, if_neg hcond]
      simp only [trigger_authed, hp]
      simp
    refine ⟨h401, ?_⟩
    intro dev2 env2
    rw [h401]
    simp only [trigger_regeneration, if_pos rfl]
    rcases hlogin : login { st with auth_cookie := none } env2.login_r
      with ⟨st3, res⟩
    cases res <;> rfl
  · intro dev env st hc hp
    have hcond : ¬ (truthyOpt st.auth_cookie = false) := by simp [hc]
    simp only [trigger_regeneration, if_neg hcond]
    simp only [trigger_authed, hp]
  · intro dev env st hc hp
    have hcond : ¬ (truthyOpt st.auth_cookie = false) := by simp [hc]
    simp only [trigger_regeneration, if_neg hcond]
    simp only [trigger_authed, hp]

/-- Witness for C8: an authenticated client whose regenerate POST returns
401, then a second call on the cleared session. -/
theorem trigger_regeneration_auth_witness :
    trigger_regeneration "d1"
      { login_r := .timeout, post_r := .resp 401 .null [] }
      { initState with auth_cookie := some "tok" }
      = ({ initState with auth_cookie := none }, [.regenPost "d1"],
          .error (.invalidAuth "Authentication expired"))
  ∧ (trigger_regeneration "d1"
      { login_r := .timeout, post_r := .resp 401 .null [] }
      (trigger_regeneration "d1"
        { login_r := .timeout, post_r := .resp 401 .null [] }
        { initState with auth_cookie := some "tok" }).1).2.1.head?
      = some .loginCall := by
  have h := trigger_regeneration_auth.1 "d1"
    { login_r := .timeout, post_r := .resp 401 .null [] }
    { initState with auth_cookie := some "tok" } .null [] (by decide) rfl
  exact ⟨h.1, h.2 "d1" { login_r := .timeout, post_r := .resp 401 .null [] }⟩

/-- Auxiliary: running an interleaving splits along list concatenation. -/
lemma runConcFrom_append_eq (xs ys : List CEvent) :
    ∀ s : CState, runConcFrom (xs ++ ys) s = runConcFrom ys (runConcFrom xs s) := by
  induction xs with
  | nil => intro s; rfl
  | cons e es ih => intro s; exact ih (cstep e s)

/-- C9 counterexample: an interleaving in which session A has received 17
messages but session B started in between.  With session B's start resetting
the one shared `ws_message_count`, session A never reaches its threshold and
never closes (`closeCallsA = 0`), whereas the same A-events run alone close
exactly once — so A's behaviour is not a function of A's own events: the two
concurrent sessions do share the message counter, refuting the claim. -/
theorem ws_sessions_share_counter_counterexample :
    (runConc (CEvent.startA :: (List.replicate 16 CEvent.msgA
      ++ [CEvent.startB, CEvent.msgA]))).closeCallsA = 0
  ∧ (runConc ((CEvent.startA :: (List.replicate 16 CEvent.msgA
      ++ [CEvent.startB, CEvent.msgA])).filter isAEvent)).closeCallsA = 1
  ∧ ¬ (∀ es : List CEvent,
        (runConc es).closeCallsA = (runConc (es.filter isAEvent)).closeCallsA) := by
  refine ⟨by decide, by decide, ?_⟩
  intro h
  have hc := h (CEvent.startA :: (List.replicate 16 CEvent.msgA
    ++ [CEvent.startB, CEvent.msgA]))
  revert hc
  decide

/-- C9 (amended): all websocket sessions of one client share the single
message counter stored on the client object — a session start resets that
shared counter to 0 no matter how many messages a concurrent session has
already received — while in the intended sequential execution the
orchestrator re-arms the shared completion flag to pending (1) before each
worker, and the worker sets it done (0) on termination. -/
theorem ws_shared_counter_amended :
    (∀ n : Nat, (runConc (CEvent.startA :: (List.replicate n CEvent.msgA
        ++ [CEvent.startB]))).count = 0)
  ∧ (∀ s : CState, (cstep .startB s).count = 0)
  ∧ (∀ (debug : Bool) (run : WsRun) (st : ApiState),
      (start_ws debug run
        { st with waiting_for_ws_thread_to_end := 1 }).1.waiting_for_ws_thread_to_end
        = 0) := by
  refine ⟨?_, fun s => rfl, fun debug run st => by cases run <;> rfl⟩
  intro n
  show (runConcFrom (List.replicate n CEvent.msgA ++ [CEvent.startB])
    (cstep .startA cInit)).count = 0
  rw [runConcFrom_append_eq]
  rfl

end HydroLink
